import Mathlib

/-!
# Thread-count policy of `src/openmp-utils.c`

A shallow embedding of the three operations of `openmp-utils.c`
(`getDTthreads`, `setDTthreads`, `when_fork`) as pure functions on an
explicit state, followed by theorems about them.

The C file keeps one `static int DTthreads` and talks to two external
collaborators: the OpenMP runtime (`omp_get_max_threads`,
`omp_get_thread_limit`, `omp_set_num_threads`) and the R API (`isInteger`,
`length`, `INTEGER`, `ScalarInteger`, `error`).  Both are modelled below.
All arithmetic in the file is comparison and selection of `int` values, so
no operation can overflow and `Int` is used for C `int`.
-/

namespace OpenmpUtils

/-! ## The R values handed to `setDTthreads` -/

/-- Modelled from the spec: an R value (`SEXP`) as far as `setDTthreads` can
tell values apart.  `nil` is `R_NilValue` (an absent value, length 0),
`lgl`, `int`, `real`, `str` are the vector types with their elements; an
`int` vector carries the flag "has class factor", because R's `isInteger`
answers false on factors.  Doubles are represented by rationals: the code
never reads them. -/
inductive SEXP where
  | nil : SEXP
  | lgl (xs : List Int) : SEXP
  | int (xs : List Int) (isFactor : Bool) : SEXP
  | real (xs : List Rat) : SEXP
  | str (xs : List String) : SEXP
  deriving DecidableEq, Repr

/-- Modelled from the spec: R's `isInteger(s)`, true exactly on integer
vectors that are not factors. -/
def isInteger : SEXP → Bool
  | .int _ isFactor => !isFactor
  | _ => false

/-- Modelled from the spec: R's `length(s)`, the number of elements. -/
def length : SEXP → Int
  | .nil => 0
  | .lgl xs => xs.length
  | .int xs _ => xs.length
  | .real xs => xs.length
  | .str xs => xs.length

/-- Modelled from the spec: R's `INTEGER(s)`, the `int` payload of an integer
vector (empty for every other value, where the code never reads it). -/
def INTEGER : SEXP → List Int
  | .int xs _ => xs
  | _ => []

/-- Modelled from the spec: R's `ScalarInteger(x)`, a fresh integer vector of
length one holding `x`. -/
def ScalarInteger (x : Int) : SEXP := .int [x] false

/-- Modelled from the spec: R's `NA_INTEGER`, the most negative C `int`. -/
def NA_INTEGER : Int := -2147483648

/-- The text handed to `error(...)` by `setDTthreads` (the C literal is
continued over two source lines, so the indentation of the second line is
part of it). -/
def errmsg : String :=
  "Argument to setDTthreads must be a single integer >= 0.            Default 0 is recommended to use all CPU."

/-! ## The state: `DTthreads` and the OpenMP runtime -/

/-- The process-wide state the file reads and writes: its own
`static int DTthreads`, and the two internal control variables of the
OpenMP runtime that the file queries.  `omp_set_log` is a ghost field: the
arguments of every `omp_set_num_threads` call so far, newest first. -/
structure State where
  DTthreads : Int
  nthreads_var : Int
  thread_limit_var : Int
  omp_set_log : List Int
  deriving DecidableEq, Repr

/-- Modelled from the spec: `omp_get_max_threads()`, the currently configured
ceiling of the runtime. -/
def omp_get_max_threads (s : State) : Int := s.nthreads_var

/-- Modelled from the spec: `omp_get_thread_limit()`, the ceiling the runtime
will not exceed. -/
def omp_get_thread_limit (s : State) : Int := s.thread_limit_var

/-- Modelled from the spec: `omp_set_num_threads(n)`.  As the comment in
`setDTthreads` says, it "sets the value returned by omp_get_max_threads()";
the call is also recorded in the ghost log. -/
def omp_set_num_threads (s : State) (n : Int) : State :=
  { s with nthreads_var := n, omp_set_log := n :: s.omp_set_log }

/-- Modelled from the spec: the macro `MIN(a,b)` of `data.table.h`,
`(((a)<(b))?(a):(b))`. -/
def MIN (a b : Int) : Int := if a < b then a else b

/-- Modelled from the spec: the macro `MAX(a,b)` of `data.table.h`,
`(((a)>(b))?(a):(b))`. -/
def MAX (a b : Int) : Int := if a > b then a else b

/-- The state at load time: `static int DTthreads = 0`, with the runtime
reporting `runtimeMax` and `hardLimit` and no mutator call made yet. -/
def initState (runtimeMax hardLimit : Int) : State :=
  { DTthreads := 0, nthreads_var := runtimeMax, thread_limit_var := hardLimit,
    omp_set_log := [] }

/-! ## The three operations

The first argument `OPENMP` of `getDTthreads` and `setDTthreads` is the
build: `true` when the preprocessor symbol `_OPENMP` is defined. -/

/-- The function `getDTthreads()` of lines 23-30. -/
def getDTthreads (OPENMP : Bool) (s : State) : Int :=
  if OPENMP then
    let ans :=
      if s.DTthreads == 0 then omp_get_max_threads s
      else MIN s.DTthreads (omp_get_max_threads s)
    MAX 1 ans
  else
    1

/-- The function `getDTthreads_R()` of lines 32-34. -/
def getDTthreads_R (OPENMP : Bool) (s : State) : SEXP :=
  ScalarInteger (getDTthreads OPENMP s)

/-- The function `setDTthreads(threads)` of lines 36-57.  The result pairs
what the call hands back (the error raised by `error(...)`, or the returned
`ScalarInteger(old)`) with the state at that moment.  `||` is short-circuit,
so element 0 is read only from an integer vector of length one; `headD`
supplies a value that is never looked at otherwise. -/
def setDTthreads (OPENMP : Bool) (s : State) (threads : SEXP) :
    Except String SEXP × State :=
  if !isInteger threads || length threads != 1 || (INTEGER threads).headD 0 < 0 then
    (.error errmsg, s)
  else
    let old := s.DTthreads
    let s1 := { s with DTthreads := (INTEGER threads).headD 0 }
    let s2 :=
      if OPENMP then
        if omp_get_max_threads s1 < omp_get_thread_limit s1 then
          if s1.DTthreads == 0 then
            omp_set_num_threads s1 (omp_get_thread_limit s1)
          else if s1.DTthreads > omp_get_max_threads s1 then
            omp_set_num_threads s1 (MIN s1.DTthreads (omp_get_thread_limit s1))
          else s1
        else s1
      else s1
    (.ok (ScalarInteger old), s2)

/-- The function `when_fork()` of lines 79-81. -/
def when_fork (s : State) : State :=
  { s with DTthreads := 1 }

/-! ## Runs of the state machine -/

/-- What can happen to the state: a call of `setDTthreads` with some R value,
or a fork (the child runs `when_fork`). -/
inductive Event where
  | set (threads : SEXP) : Event
  | fork : Event
  deriving DecidableEq, Repr

/-- The state after one event.  A failing `setDTthreads` call leaves the
state it raised the error in. -/
def step (OPENMP : Bool) (s : State) : Event → State
  | .set threads => (setDTthreads OPENMP s threads).2
  | .fork => when_fork s

/-- The state after a sequence of events, oldest first. -/
def run (OPENMP : Bool) (s : State) (evs : List Event) : State :=
  evs.foldl (step OPENMP) s

/-! ## Helper lemmas -/

theorem MIN_eq_min (a b : Int) : MIN a b = min a b := by
  unfold MIN
  split_ifs with h
  · exact (min_eq_left (le_of_lt h)).symm
  · exact (min_eq_right (not_lt.mp h)).symm

theorem MAX_eq_max (a b : Int) : MAX a b = max a b := by
  unfold MAX
  split_ifs with h
  · exact (max_eq_left (le_of_lt h)).symm
  · exact (max_eq_right (not_lt.mp h)).symm

/-- The state a successful call `setDTthreads(n)` leaves, and what it
returns, spelled out for a valid argument. -/
theorem setDTthreads_valid (o : Bool) (s : State) (n : Int) (h : 0 ≤ n) :
    setDTthreads o s (ScalarInteger n) =
      (.ok (ScalarInteger s.DTthreads),
        if o = true ∧ s.nthreads_var < s.thread_limit_var then
          if n = 0 then
            { s with DTthreads := n, nthreads_var := s.thread_limit_var,
                     omp_set_log := s.thread_limit_var :: s.omp_set_log }
          else if s.nthreads_var < n then
            { s with DTthreads := n, nthreads_var := min n s.thread_limit_var,
                     omp_set_log := min n s.thread_limit_var :: s.omp_set_log }
          else { s with DTthreads := n }
        else { s with DTthreads := n }) := by
  have hn : ¬ n < 0 := not_lt.mpr h
  cases o <;>
    simp [setDTthreads, ScalarInteger, isInteger, length, INTEGER, hn,
      omp_get_max_threads, omp_get_thread_limit, omp_set_num_threads, MIN_eq_min]

/-- A failing call hands back the state it was given. -/
theorem setDTthreads_error_state (o : Bool) (s : State) (a : SEXP) (e : String)
    (h : (setDTthreads o s a).1 = .error e) : (setDTthreads o s a).2 = s := by
  unfold setDTthreads at h ⊢
  by_cases hc :
      (!isInteger a || length a != 1 || decide ((INTEGER a).headD 0 < 0)) = true
  · rw [if_pos hc]
  · rw [if_neg hc] at h
    simp at h

/-- No call of `setDTthreads` changes the hard limit. -/
theorem setDTthreads_limit (o : Bool) (s : State) (a : SEXP) :
    (setDTthreads o s a).2.thread_limit_var = s.thread_limit_var := by
  unfold setDTthreads
  simp only [omp_set_num_threads]
  split_ifs <;> rfl

/-- A call of `setDTthreads` keeps the runtime max at or below the hard limit
when it was so before. -/
theorem setDTthreads_max_le (o : Bool) (s : State) (a : SEXP)
    (h : s.nthreads_var ≤ s.thread_limit_var) :
    (setDTthreads o s a).2.nthreads_var ≤ s.thread_limit_var := by
  unfold setDTthreads
  simp only [omp_set_num_threads, omp_get_thread_limit, MIN_eq_min]
  split_ifs <;> simp [h]

/-- One event changes neither the hard limit nor the fact that the runtime max
is at or below it. -/
theorem step_inv (o : Bool) (s : State) (ev : Event)
    (h : s.nthreads_var ≤ s.thread_limit_var) :
    (step o s ev).thread_limit_var = s.thread_limit_var ∧
      (step o s ev).nthreads_var ≤ (step o s ev).thread_limit_var := by
  cases ev with
  | set a =>
    simp only [step]
    rw [setDTthreads_limit]
    exact ⟨rfl, setDTthreads_max_le o s a h⟩
  | fork => exact ⟨rfl, h⟩

/-- A run of events keeps the hard limit and keeps the runtime max at or below
it. -/
theorem run_inv (o : Bool) (evs : List Event) (s : State)
    (h : s.nthreads_var ≤ s.thread_limit_var) :
    (run o s evs).thread_limit_var = s.thread_limit_var ∧
      (run o s evs).nthreads_var ≤ (run o s evs).thread_limit_var := by
  induction evs generalizing s with
  | nil => exact ⟨rfl, h⟩
  | cons ev evs ih =>
    have h1 := step_inv o s ev h
    have h2 := ih (step o s ev) h1.2
    simp only [run, List.foldl_cons] at h2 ⊢
    exact ⟨h2.1.trans h1.1, h2.2⟩

/-- The result of `getDTthreads` lies between 1 and the larger of 1 and the
runtime max. -/
theorem getDTthreads_bounds (o : Bool) (s : State) :
    1 ≤ getDTthreads o s ∧ getDTthreads o s ≤ max 1 s.nthreads_var := by
  cases o
  · simp [getDTthreads]
  · by_cases h : s.DTthreads = 0
    · simp [getDTthreads, h, MAX_eq_max, omp_get_max_threads]
    · simp only [getDTthreads, MAX_eq_max, MIN_eq_min, omp_get_max_threads, beq_iff_eq, h,
        if_true, if_false]
      refine ⟨le_max_left _ _, max_le (le_max_left _ _) ?_⟩
      exact le_trans (min_le_right _ _) (le_max_right _ _)

/-- What a successful call returns: the value `DTthreads` had before. -/
theorem setDTthreads_valid_fst (o : Bool) (s : State) (n : Int) (h : 0 ≤ n) :
    (setDTthreads o s (ScalarInteger n)).1 = .ok (ScalarInteger s.DTthreads) := by
  rw [setDTthreads_valid o s n h]

/-- What a successful call leaves in `DTthreads`: its argument. -/
theorem setDTthreads_valid_DT (o : Bool) (s : State) (n : Int) (h : 0 ≤ n) :
    (setDTthreads o s (ScalarInteger n)).2.DTthreads = n := by
  rw [setDTthreads_valid o s n h]
  dsimp only
  split_ifs <;> rfl

/-- Every call of `setDTthreads` either raises the error, leaving the state as
it was, or returns the previous `DTthreads`; it succeeds exactly on an
integer vector (not a factor) of length one whose element is not negative. -/
theorem setDTthreads_cases (o : Bool) (s : State) (a : SEXP) :
    ((∃ n, 0 ≤ n ∧ a = ScalarInteger n) ∧
        (setDTthreads o s a).1 = .ok (ScalarInteger s.DTthreads)) ∨
    ((¬ ∃ n, 0 ≤ n ∧ a = ScalarInteger n) ∧
        (setDTthreads o s a).1 = .error errmsg) := by
  by_cases hv : ∃ n, 0 ≤ n ∧ a = ScalarInteger n
  · obtain ⟨n, hn, rfl⟩ := hv
    exact Or.inl ⟨⟨n, hn, rfl⟩, setDTthreads_valid_fst o s n hn⟩
  · refine Or.inr ⟨hv, ?_⟩
    have hc : (!isInteger a || length a != 1 || decide ((INTEGER a).headD 0 < 0)) = true := by
      cases a with
      | nil => rfl
      | lgl xs => rfl
      | real xs => rfl
      | str xs => rfl
      | int xs f =>
        cases f
        · rcases xs with _ | ⟨x, _ | ⟨y, r⟩⟩
          · rfl
          · have hx : x < 0 := by
              by_contra hx
              exact hv ⟨x, not_lt.mp hx, rfl⟩
            simp [isInteger, length, INTEGER, hx]
          · have : (r.length : Int) + 1 + 1 ≠ 1 := by omega
            simp [isInteger, length, INTEGER, this]
        · rfl
    unfold setDTthreads
    rw [if_pos hc]

/-- The three ways an argument can be wrong, against the shape of a right
one. -/
theorem invalid_iff (a : SEXP) :
    (isInteger a = false ∨ length a ≠ 1 ∨ ∃ x, INTEGER a = [x] ∧ x < 0) ↔
      ¬ ∃ n, 0 ≤ n ∧ a = ScalarInteger n := by
  constructor
  · rintro h ⟨n, hn, rfl⟩
    rcases h with h | h | ⟨x, hx, hneg⟩
    · simp [isInteger, ScalarInteger] at h
    · simp [length, ScalarInteger] at h
    · simp only [INTEGER, ScalarInteger, List.cons.injEq, and_true] at hx
      omega
  · intro hv
    cases a with
    | nil => exact Or.inl rfl
    | lgl xs => exact Or.inl rfl
    | real xs => exact Or.inl rfl
    | str xs => exact Or.inl rfl
    | int xs f =>
      cases f
      · rcases xs with _ | ⟨x, _ | ⟨y, r⟩⟩
        · exact Or.inr (Or.inl (by simp [length]))
        · refine Or.inr (Or.inr ⟨x, rfl, ?_⟩)
          by_contra hx
          exact hv ⟨x, not_lt.mp hx, rfl⟩
        · refine Or.inr (Or.inl ?_)
          simp only [length, List.length_cons]
          push_cast
          omega
      · exact Or.inl rfl

/-! ## Theorems -/

/-- C1: in the OpenMP build, `getDTthreads` returns `max(1, runtimeMax)` when
`DTthreads == 0` and `max(1, min(DTthreads, runtimeMax))` otherwise, in every
state. -/
theorem getDTthreads_eq (s : State) :
    getDTthreads true s =
      if s.DTthreads = 0 then max 1 (omp_get_max_threads s)
      else max 1 (min s.DTthreads (omp_get_max_threads s)) := by
  by_cases h : s.DTthreads = 0
  · simp [getDTthreads, h, MAX_eq_max]
  · simp [getDTthreads, h, MAX_eq_max, MIN_eq_min]

/-- C2 (as stated, refuted): from the initial state in which the runtime
reports a max of 8 and a hard limit of 4, after the valid call
`setDTthreads(0)` the function `getDTthreads` returns 8, which is above the
hard limit. -/
theorem getDTthreads_exceeds_hardLimit :
    getDTthreads true (run true (initState 8 4) [Event.set (ScalarInteger 0)]) = 8 ∧
    omp_get_thread_limit (run true (initState 8 4) [Event.set (ScalarInteger 0)]) = 4 ∧
    ¬ (getDTthreads true (run true (initState 8 4) [Event.set (ScalarInteger 0)]) ≤ 4) := by
  decide

/-- C2 (amended): when the hard limit is at least 1 and the runtime max reported
at load time does not exceed it, then in every state reachable from the initial
state (`DTthreads = 0`) by any sequence of `setDTthreads` calls (valid or not)
and forks, `getDTthreads` returns a value between 1 and the hard limit, and the
hard limit is still the one reported at load time. -/
theorem getDTthreads_in_range (runtimeMax hardLimit : Int) (evs : List Event)
    (h1 : 1 ≤ hardLimit) (h2 : runtimeMax ≤ hardLimit) :
    1 ≤ getDTthreads true (run true (initState runtimeMax hardLimit) evs) ∧
    getDTthreads true (run true (initState runtimeMax hardLimit) evs) ≤ hardLimit ∧
    omp_get_thread_limit (run true (initState runtimeMax hardLimit) evs) = hardLimit := by
  have hinv := run_inv true evs (initState runtimeMax hardLimit) h2
  have hb := getDTthreads_bounds true (run true (initState runtimeMax hardLimit) evs)
  have hl : (run true (initState runtimeMax hardLimit) evs).thread_limit_var = hardLimit :=
    hinv.1
  have hm : (run true (initState runtimeMax hardLimit) evs).nthreads_var ≤ hardLimit :=
    le_of_le_of_eq hinv.2 hl
  exact ⟨hb.1, le_trans hb.2 (max_le h1 hm), hl⟩

/-- The range bound on a concrete run: max 8, limit 16, then `setDTthreads(4)`, a
fork, a failing `setDTthreads(-1)` and `setDTthreads(0)`. -/
theorem getDTthreads_in_range_witness :
    1 ≤ getDTthreads true (run true (initState 8 16)
        [Event.set (ScalarInteger 4), Event.fork, Event.set (ScalarInteger (-1)),
          Event.set (ScalarInteger 0)]) ∧
    getDTthreads true (run true (initState 8 16)
        [Event.set (ScalarInteger 4), Event.fork, Event.set (ScalarInteger (-1)),
          Event.set (ScalarInteger 0)]) ≤ 16 ∧
    omp_get_thread_limit (run true (initState 8 16)
        [Event.set (ScalarInteger 4), Event.fork, Event.set (ScalarInteger (-1)),
          Event.set (ScalarInteger 0)]) = 16 :=
  getDTthreads_in_range 8 16
    [Event.set (ScalarInteger 4), Event.fork, Event.set (ScalarInteger (-1)),
      Event.set (ScalarInteger 0)] (by decide) (by decide)

/-- C3: after `when_fork`, `DTthreads` is 1 and `getDTthreads` returns exactly
1, whatever `DTthreads`, the runtime max and the hard limit were (in either
build). -/
theorem when_fork_single (o : Bool) (s : State) :
    (when_fork s).DTthreads = 1 ∧ getDTthreads o (when_fork s) = 1 := by
  refine ⟨rfl, ?_⟩
  cases o
  · rfl
  · have hb := getDTthreads_bounds true (when_fork s)
    refine le_antisymm ?_ hb.1
    simp only [getDTthreads, when_fork, MAX_eq_max, MIN_eq_min, if_true]
    exact max_le le_rfl (by simp)

/-- C4: in a state left by `when_fork` whose runtime max is below the hard
limit (a positive number, as the OpenMP runtime reports it), `setDTthreads(0)`
sets the runtime max to the hard limit and the next `getDTthreads` returns the
hard limit. -/
theorem setDTthreads_zero_after_fork (s : State)
    (hlt : omp_get_max_threads (when_fork s) < omp_get_thread_limit (when_fork s))
    (hpos : 1 ≤ omp_get_thread_limit (when_fork s)) :
    omp_get_max_threads (setDTthreads true (when_fork s) (ScalarInteger 0)).2 =
        omp_get_thread_limit (when_fork s) ∧
    getDTthreads true (setDTthreads true (when_fork s) (ScalarInteger 0)).2 =
        omp_get_thread_limit (when_fork s) := by
  simp only [omp_get_max_threads, omp_get_thread_limit, when_fork] at hlt hpos
  rw [setDTthreads_valid true (when_fork s) 0 le_rfl]
  simp [when_fork, hlt, getDTthreads, omp_get_max_threads, omp_get_thread_limit,
    MAX_eq_max, hpos]

/-- Recovery after a fork with hard limit 16 and runtime max 8. -/
theorem setDTthreads_zero_after_fork_witness :
    omp_get_max_threads
        (setDTthreads true (when_fork ⟨8, 8, 16, []⟩) (ScalarInteger 0)).2 =
      omp_get_thread_limit (when_fork ⟨8, 8, 16, []⟩) ∧
    getDTthreads true
        (setDTthreads true (when_fork ⟨8, 8, 16, []⟩) (ScalarInteger 0)).2 =
      omp_get_thread_limit (when_fork ⟨8, 8, 16, []⟩) :=
  setDTthreads_zero_after_fork ⟨8, 8, 16, []⟩ (by decide) (by decide)

/-- C5: for every state and every integer `n >= 0`, `setDTthreads(n)` returns
the value `DTthreads` had before the call and leaves `DTthreads` equal to `n`
(in either build). -/
theorem setDTthreads_swap (o : Bool) (s : State) (n : Int) (h : 0 ≤ n) :
    (setDTthreads o s (ScalarInteger n)).1 = .ok (ScalarInteger s.DTthreads) ∧
    (setDTthreads o s (ScalarInteger n)).2.DTthreads = n :=
  ⟨setDTthreads_valid_fst o s n h, setDTthreads_valid_DT o s n h⟩

/-- The swap on a concrete state: `DTthreads` is 3 and `setDTthreads(5)` is called. -/
theorem setDTthreads_swap_witness :
    (setDTthreads true ⟨3, 8, 16, []⟩ (ScalarInteger 5)).1 = .ok (ScalarInteger 3) ∧
    (setDTthreads true ⟨3, 8, 16, []⟩ (ScalarInteger 5)).2.DTthreads = 5 :=
  setDTthreads_swap true ⟨3, 8, 16, []⟩ 5 (by decide)

/-- C6: `setDTthreads` raises its error if and only if the argument is not of
integer type, or does not have length exactly 1, or its single element is
negative; otherwise (exactly on a single integer `>= 0`) it succeeds and
returns the previous `DTthreads`.  The integer NA, the most negative `int`, is
among the failing arguments. -/
theorem setDTthreads_fails_iff (o : Bool) (s : State) (a : SEXP) :
    ((setDTthreads o s a).1 = .error errmsg ↔
      (isInteger a = false ∨ length a ≠ 1 ∨ ∃ x, INTEGER a = [x] ∧ x < 0)) ∧
    ((setDTthreads o s a).1 = .ok (ScalarInteger s.DTthreads) ↔
      ¬ (isInteger a = false ∨ length a ≠ 1 ∨ ∃ x, INTEGER a = [x] ∧ x < 0)) ∧
    ((setDTthreads o s a).1 = .ok (ScalarInteger s.DTthreads) ↔
      ∃ n, 0 ≤ n ∧ a = ScalarInteger n) ∧
    (setDTthreads o s (ScalarInteger NA_INTEGER)).1 = .error errmsg := by
  have hna : (setDTthreads o s (ScalarInteger NA_INTEGER)).1 = .error errmsg := by
    rcases setDTthreads_cases o s (ScalarInteger NA_INTEGER) with ⟨⟨n, hn, he⟩, _⟩ | ⟨_, h⟩
    · simp only [ScalarInteger, NA_INTEGER, SEXP.int.injEq, List.cons.injEq, and_true] at he
      omega
    · exact h
  rw [invalid_iff a, not_not]
  rcases setDTthreads_cases o s a with ⟨hv, hok⟩ | ⟨hv, herr⟩
  · refine ⟨⟨fun h => ?_, fun h => absurd hv h⟩, ⟨fun _ => hv, fun _ => hok⟩,
      ⟨fun _ => hv, fun _ => hok⟩, hna⟩
    rw [hok] at h
    cases h
  · refine ⟨⟨fun _ => hv, fun _ => herr⟩, ⟨fun h => ?_, fun h => absurd h hv⟩,
      ⟨fun h => ?_, fun h => absurd h hv⟩, hna⟩ <;>
    · rw [herr] at h
      cases h

/-- C7: a failing `setDTthreads` call leaves the whole state as it was, in
particular `DTthreads` and the runtime max, and `getDTthreads` returns the same
value after the failed call as before it (in either build). -/
theorem setDTthreads_error_unchanged (o : Bool) (s : State) (a : SEXP) (e : String)
    (h : (setDTthreads o s a).1 = .error e) :
    (setDTthreads o s a).2 = s ∧
    (setDTthreads o s a).2.DTthreads = s.DTthreads ∧
    omp_get_max_threads (setDTthreads o s a).2 = omp_get_max_threads s ∧
    getDTthreads o (setDTthreads o s a).2 = getDTthreads o s := by
  rw [setDTthreads_error_state o s a e h]
  exact ⟨rfl, rfl, rfl, rfl⟩

/-- The four failing arguments `-1`, `2.5`, `NULL` and a vector of two values,
from the state with `DTthreads = 3`, max 8 and limit 16. -/
theorem setDTthreads_error_unchanged_witness :
    ((setDTthreads true ⟨3, 8, 16, []⟩ (ScalarInteger (-1))).1 = .error errmsg ∧
      getDTthreads true (setDTthreads true ⟨3, 8, 16, []⟩ (ScalarInteger (-1))).2 =
        getDTthreads true ⟨3, 8, 16, []⟩) ∧
    ((setDTthreads true ⟨3, 8, 16, []⟩ (SEXP.real [5 / 2])).1 = .error errmsg ∧
      getDTthreads true (setDTthreads true ⟨3, 8, 16, []⟩ (SEXP.real [5 / 2])).2 =
        getDTthreads true ⟨3, 8, 16, []⟩) ∧
    ((setDTthreads true ⟨3, 8, 16, []⟩ SEXP.nil).1 = .error errmsg ∧
      getDTthreads true (setDTthreads true ⟨3, 8, 16, []⟩ SEXP.nil).2 =
        getDTthreads true ⟨3, 8, 16, []⟩) ∧
    ((setDTthreads true ⟨3, 8, 16, []⟩ (SEXP.int [1, 2] false)).1 = .error errmsg ∧
      getDTthreads true (setDTthreads true ⟨3, 8, 16, []⟩ (SEXP.int [1, 2] false)).2 =
        getDTthreads true ⟨3, 8, 16, []⟩) :=
  ⟨⟨by rfl, (setDTthreads_error_unchanged true ⟨3, 8, 16, []⟩ (ScalarInteger (-1))
      errmsg (by rfl)).2.2.2⟩,
    ⟨by rfl, (setDTthreads_error_unchanged true ⟨3, 8, 16, []⟩ (SEXP.real [5 / 2])
      errmsg (by rfl)).2.2.2⟩,
    ⟨by rfl, (setDTthreads_error_unchanged true ⟨3, 8, 16, []⟩ SEXP.nil
      errmsg (by rfl)).2.2.2⟩,
    ⟨by rfl, (setDTthreads_error_unchanged true ⟨3, 8, 16, []⟩ (SEXP.int [1, 2] false)
      errmsg (by rfl)).2.2.2⟩⟩

/-- C8: for every state and every integer `n >= 0`, the value `getDTthreads`
returns right after `setDTthreads(n)` is at most `max(n, 1)` when `n > 0`, and
equals the runtime max as it then is, clamped to be at least 1, when
`n = 0`. -/
theorem setDTthreads_then_get (s : State) (n : Int) (h : 0 ≤ n) :
    (0 < n → getDTthreads true (setDTthreads true s (ScalarInteger n)).2 ≤ max n 1) ∧
    (n = 0 → getDTthreads true (setDTthreads true s (ScalarInteger n)).2 =
      max 1 (omp_get_max_threads (setDTthreads true s (ScalarInteger n)).2)) := by
  have hd := setDTthreads_valid_DT true s n h
  constructor
  · intro hn
    have hne : ¬ n = 0 := ne_of_gt hn
    simp only [getDTthreads, hd, MAX_eq_max, MIN_eq_min, beq_iff_eq, hne, if_true, if_false]
    exact max_le (le_max_right _ _) (le_trans (min_le_left _ _) (le_max_left _ _))
  · intro hn
    subst hn
    simp only [getDTthreads, hd, MAX_eq_max, beq_iff_eq, if_true]

/-- The read after `setDTthreads(4)` and after `setDTthreads(0)`, with max 8 and
limit 16. -/
theorem setDTthreads_then_get_witness :
    getDTthreads true (setDTthreads true ⟨0, 8, 16, []⟩ (ScalarInteger 4)).2 ≤ max 4 1 ∧
    getDTthreads true (setDTthreads true ⟨4, 8, 16, []⟩ (ScalarInteger 0)).2 =
      max 1 (omp_get_max_threads (setDTthreads true ⟨4, 8, 16, []⟩ (ScalarInteger 0)).2) :=
  ⟨(setDTthreads_then_get ⟨0, 8, 16, []⟩ 4 (by decide)).1 (by decide),
    (setDTthreads_then_get ⟨4, 8, 16, []⟩ 0 (by decide)).2 rfl⟩

/-- C9: for every state and every integer `n >= 0`, the second of two
consecutive calls `setDTthreads(n)` returns `n` (in either build). -/
theorem setDTthreads_twice_returns (o : Bool) (s : State) (n : Int) (h : 0 ≤ n) :
    (setDTthreads o (setDTthreads o s (ScalarInteger n)).2 (ScalarInteger n)).1 =
      .ok (ScalarInteger n) := by
  rw [setDTthreads_valid_fst o _ n h, setDTthreads_valid_DT o s n h]

/-- Two calls `setDTthreads(5)` in a row: the second returns 5. -/
theorem setDTthreads_twice_returns_witness :
    (setDTthreads true (setDTthreads true ⟨0, 8, 16, []⟩ (ScalarInteger 5)).2
        (ScalarInteger 5)).1 = .ok (ScalarInteger 5) :=
  setDTthreads_twice_returns true ⟨0, 8, 16, []⟩ 5 (by decide)

/-- C10: `when_fork` changes only `DTthreads`: the runtime max and the hard
limit are the same after the hook as before it, and the hook makes no call of
`omp_set_num_threads` (the log of such calls is unchanged). -/
theorem when_fork_frame (s : State) :
    omp_get_max_threads (when_fork s) = omp_get_max_threads s ∧
    omp_get_thread_limit (when_fork s) = omp_get_thread_limit s ∧
    (when_fork s).omp_set_log = s.omp_set_log ∧
    when_fork s = { s with DTthreads := 1 } :=
  ⟨rfl, rfl, rfl, rfl⟩

/-- C11: in the OpenMP build, for every state in which the runtime max is below
the hard limit, `setDTthreads(0)` sets the runtime max to exactly the hard
limit (by one call `omp_set_num_threads(omp_get_thread_limit())`). -/
theorem setDTthreads_zero_raises (s : State)
    (hlt : omp_get_max_threads s < omp_get_thread_limit s) :
    omp_get_max_threads (setDTthreads true s (ScalarInteger 0)).2 = omp_get_thread_limit s ∧
    (setDTthreads true s (ScalarInteger 0)).2.omp_set_log =
      omp_get_thread_limit s :: s.omp_set_log := by
  simp only [omp_get_max_threads, omp_get_thread_limit] at hlt ⊢
  rw [setDTthreads_valid true s 0 le_rfl]
  simp [hlt]

/-- The reset `setDTthreads(0)` with runtime max 8 below hard limit 16. -/
theorem setDTthreads_zero_raises_witness :
    omp_get_max_threads (setDTthreads true ⟨4, 8, 16, []⟩ (ScalarInteger 0)).2 =
      omp_get_thread_limit ⟨4, 8, 16, []⟩ ∧
    (setDTthreads true ⟨4, 8, 16, []⟩ (ScalarInteger 0)).2.omp_set_log =
      omp_get_thread_limit ⟨4, 8, 16, []⟩ :: [] :=
  setDTthreads_zero_raises ⟨4, 8, 16, []⟩ (by decide)

/-- C12: in the OpenMP build, for every state in which the runtime max is below
the hard limit and every `n > 0` above the runtime max, `setDTthreads(n)` sets
the runtime max to exactly `min(n, hardLimit)`. -/
theorem setDTthreads_pos_raises (s : State) (n : Int)
    (hlt : omp_get_max_threads s < omp_get_thread_limit s)
    (hn : 0 < n) (hgt : omp_get_max_threads s < n) :
    omp_get_max_threads (setDTthreads true s (ScalarInteger n)).2 =
      min n (omp_get_thread_limit s) := by
  simp only [omp_get_max_threads, omp_get_thread_limit] at hlt hgt ⊢
  rw [setDTthreads_valid true s n (le_of_lt hn)]
  simp [hlt, hgt, ne_of_gt hn]

/-- A request of 4 and a request of 32 with runtime max 2 below hard limit 16:
the runtime max becomes 4, respectively 16. -/
theorem setDTthreads_pos_raises_witness :
    omp_get_max_threads (setDTthreads true ⟨0, 2, 16, []⟩ (ScalarInteger 4)).2 =
      min 4 (omp_get_thread_limit ⟨0, 2, 16, []⟩) ∧
    omp_get_max_threads (setDTthreads true ⟨0, 2, 16, []⟩ (ScalarInteger 32)).2 =
      min 32 (omp_get_thread_limit ⟨0, 2, 16, []⟩) :=
  ⟨setDTthreads_pos_raises ⟨0, 2, 16, []⟩ 4 (by decide) (by decide) (by decide),
    setDTthreads_pos_raises ⟨0, 2, 16, []⟩ 32 (by decide) (by decide) (by decide)⟩

/-- C13: in the OpenMP build, for every valid `n`, `setDTthreads(n)` changes
nothing but `DTthreads` (the runtime max is the same, no call of
`omp_set_num_threads` is made) whenever the runtime max is not below the hard
limit, and whenever `n > 0` and `n` is at most the runtime max. -/
theorem setDTthreads_frame (s : State) (n : Int) (h : 0 ≤ n)
    (hc : ¬ omp_get_max_threads s < omp_get_thread_limit s ∨
      (0 < n ∧ n ≤ omp_get_max_threads s)) :
    omp_get_max_threads (setDTthreads true s (ScalarInteger n)).2 = omp_get_max_threads s ∧
    (setDTthreads true s (ScalarInteger n)).2.omp_set_log = s.omp_set_log ∧
    (setDTthreads true s (ScalarInteger n)).2 = { s with DTthreads := n } := by
  have hs : (setDTthreads true s (ScalarInteger n)).2 = { s with DTthreads := n } := by
    simp only [omp_get_max_threads, omp_get_thread_limit] at hc
    rw [setDTthreads_valid true s n h]
    rcases hc with hc | ⟨hpos, hle⟩
    · simp [hc]
    · simp [ne_of_gt hpos, not_lt.mpr hle]
  rw [hs]
  exact ⟨rfl, rfl, rfl⟩

/-- The two cases on concrete states: runtime max 16 at the hard limit 16 with
`setDTthreads(0)`, and runtime max 8 below it with `setDTthreads(4)`. -/
theorem setDTthreads_frame_witness :
    (setDTthreads true ⟨3, 16, 16, []⟩ (ScalarInteger 0)).2 = ⟨0, 16, 16, []⟩ ∧
    (setDTthreads true ⟨3, 8, 16, []⟩ (ScalarInteger 4)).2 = ⟨4, 8, 16, []⟩ :=
  ⟨(setDTthreads_frame ⟨3, 16, 16, []⟩ 0 (by decide) (Or.inl (by decide))).2.2,
    (setDTthreads_frame ⟨3, 8, 16, []⟩ 4 (by decide)
      (Or.inr ⟨by decide, by decide⟩)).2.2⟩

/-- C14: in the build without OpenMP, `getDTthreads` returns 1 in every state,
in particular after any sequence of `setDTthreads` calls and forks from any
state. -/
theorem getDTthreads_without_openmp (s : State) (evs : List Event) :
    getDTthreads false s = 1 ∧ getDTthreads false (run false s evs) = 1 :=
  ⟨rfl, rfl⟩

/-- C15: `DTthreads >= 0` is an invariant (in either build): it holds in the
initial state, every event (a successful `setDTthreads` call, a failing one, a
fork) preserves it, and so it holds after every sequence of events from the
initial state. -/
theorem DTthreads_nonneg (o : Bool) (runtimeMax hardLimit : Int) (s : State) (ev : Event)
    (evs : List Event) :
    0 ≤ (initState runtimeMax hardLimit).DTthreads ∧
    (0 ≤ s.DTthreads → 0 ≤ (step o s ev).DTthreads) ∧
    0 ≤ (run o (initState runtimeMax hardLimit) evs).DTthreads := by
  have hstep : ∀ (t : State) (e : Event), 0 ≤ t.DTthreads → 0 ≤ (step o t e).DTthreads := by
    intro t e ht
    cases e with
    | fork => simp [step, when_fork]
    | set a =>
      simp only [step]
      rcases setDTthreads_cases o t a with ⟨⟨n, hn, rfl⟩, _⟩ | ⟨_, herr⟩
      · rw [setDTthreads_valid_DT o t n hn]
        exact hn
      · rw [setDTthreads_error_state o t a errmsg herr]
        exact ht
  have hrun : ∀ (es : List Event) (t : State), 0 ≤ t.DTthreads →
      0 ≤ (run o t es).DTthreads := by
    intro es
    induction es with
    | nil => intro t ht; exact ht
    | cons e es ih =>
      intro t ht
      simp only [run, List.foldl_cons]
      exact ih (step o t e) (hstep t e ht)
  exact ⟨le_rfl, hstep s ev, hrun evs _ le_rfl⟩

/-- The invariant across a failing call from `DTthreads = 4`, and after a fork,
a failing call and a reset from the initial state. -/
theorem DTthreads_nonneg_witness :
    0 ≤ (step true ⟨4, 8, 16, []⟩ (Event.set (ScalarInteger (-1)))).DTthreads ∧
    0 ≤ (run true (initState 8 16)
      [Event.fork, Event.set (SEXP.real [5 / 2]), Event.set (ScalarInteger 0)]).DTthreads :=
  ⟨(DTthreads_nonneg true 8 16 ⟨4, 8, 16, []⟩ (Event.set (ScalarInteger (-1))) []).2.1
      (by decide),
    (DTthreads_nonneg true 8 16 ⟨4, 8, 16, []⟩ Event.fork
      [Event.fork, Event.set (SEXP.real [5 / 2]), Event.set (ScalarInteger 0)]).2.2⟩

/-- C16: in the OpenMP build, for every state with hard limit at least 1 and
runtime max at most the hard limit, and every `n >= 1`, `getDTthreads` right
after `setDTthreads(n)` returns exactly `min(n, hardLimit)`. -/
theorem setDTthreads_pos_then_get (s : State) (n : Int)
    (hl : 1 ≤ omp_get_thread_limit s)
    (hm : omp_get_max_threads s ≤ omp_get_thread_limit s) (hn : 1 ≤ n) :
    getDTthreads true (setDTthreads true s (ScalarInteger n)).2 =
      min n (omp_get_thread_limit s) := by
  simp only [omp_get_max_threads, omp_get_thread_limit] at hl hm ⊢
  have hne : ¬ n = 0 := by omega
  rw [setDTthreads_valid true s n (by omega)]
  simp only [true_and, hne, if_false]
  split_ifs with h1 h2 <;>
    simp only [getDTthreads, MAX_eq_max, MIN_eq_min, omp_get_max_threads, beq_iff_eq, hne,
      if_true, if_false] <;>
    omega

/-- A request of 4 and a request of 32 after the runtime max was lowered to 1,
with hard limit 16. -/
theorem setDTthreads_pos_then_get_witness :
    getDTthreads true (setDTthreads true ⟨1, 1, 16, []⟩ (ScalarInteger 4)).2 =
      min 4 (omp_get_thread_limit ⟨1, 1, 16, []⟩) ∧
    getDTthreads true (setDTthreads true ⟨1, 1, 16, []⟩ (ScalarInteger 32)).2 =
      min 32 (omp_get_thread_limit ⟨1, 1, 16, []⟩) :=
  ⟨setDTthreads_pos_then_get ⟨1, 1, 16, []⟩ 4 (by decide) (by decide) (by decide),
    setDTthreads_pos_then_get ⟨1, 1, 16, []⟩ 32 (by decide) (by decide) (by decide)⟩

/-- C17: every operation preserves `runtimeMax <= hardLimit` (in either build):
if it holds before a `setDTthreads` call, valid or not, or before a fork, it
holds afterwards. -/
theorem max_le_limit_preserved (o : Bool) (s : State) (ev : Event)
    (h : omp_get_max_threads s ≤ omp_get_thread_limit s) :
    omp_get_max_threads (step o s ev) ≤ omp_get_thread_limit (step o s ev) :=
  (step_inv o s ev h).2

/-- The predicate across `setDTthreads(32)`, a failing call and a fork, from
runtime max 8 and hard limit 16. -/
theorem max_le_limit_preserved_witness :
    omp_get_max_threads (step true ⟨0, 8, 16, []⟩ (Event.set (ScalarInteger 32))) ≤
      omp_get_thread_limit (step true ⟨0, 8, 16, []⟩ (Event.set (ScalarInteger 32))) ∧
    omp_get_max_threads (step true ⟨0, 8, 16, []⟩ (Event.set SEXP.nil)) ≤
      omp_get_thread_limit (step true ⟨0, 8, 16, []⟩ (Event.set SEXP.nil)) ∧
    omp_get_max_threads (step true ⟨0, 8, 16, []⟩ Event.fork) ≤
      omp_get_thread_limit (step true ⟨0, 8, 16, []⟩ Event.fork) :=
  ⟨max_le_limit_preserved true ⟨0, 8, 16, []⟩ (Event.set (ScalarInteger 32)) (by decide),
    max_le_limit_preserved true ⟨0, 8, 16, []⟩ (Event.set SEXP.nil) (by decide),
    max_le_limit_preserved true ⟨0, 8, 16, []⟩ Event.fork (by decide)⟩

/-- C18: `setDTthreads` never lowers the runtime max: for every state and every
argument (every valid `n` in particular), in either build, the runtime max
after the call is at least the runtime max before it. -/
theorem setDTthreads_max_mono (o : Bool) (s : State) (a : SEXP) (n : Int) :
    omp_get_max_threads s ≤ omp_get_max_threads (setDTthreads o s a).2 ∧
    omp_get_max_threads s ≤ omp_get_max_threads (setDTthreads o s (ScalarInteger n)).2 := by
  have key : ∀ b : SEXP,
      omp_get_max_threads s ≤ omp_get_max_threads (setDTthreads o s b).2 := by
    intro b
    unfold setDTthreads
    simp only [omp_set_num_threads, omp_get_thread_limit, omp_get_max_threads, MIN_eq_min]
    split_ifs with h1 h2 h3 h4 h5
    · exact le_rfl
    · exact le_of_lt h3
    · exact le_min (le_of_lt h5) (le_of_lt h3)
    · exact le_rfl
    · exact le_rfl
    · exact le_rfl
  exact ⟨key a, key (ScalarInteger n)⟩

/-- C19: `setDTthreads` is idempotent on the whole state: for every state and
every valid `n`, in either build, a second call `setDTthreads(n)` leaves the
state the first one left, so `DTthreads` and the runtime max are the same
after two calls as after one. -/
theorem setDTthreads_idempotent (o : Bool) (s : State) (n : Int) (h : 0 ≤ n) :
    (setDTthreads o (setDTthreads o s (ScalarInteger n)).2 (ScalarInteger n)).2.DTthreads =
      (setDTthreads o s (ScalarInteger n)).2.DTthreads ∧
    omp_get_max_threads
        (setDTthreads o (setDTthreads o s (ScalarInteger n)).2 (ScalarInteger n)).2 =
      omp_get_max_threads (setDTthreads o s (ScalarInteger n)).2 ∧
    (setDTthreads o (setDTthreads o s (ScalarInteger n)).2 (ScalarInteger n)).2 =
      (setDTthreads o s (ScalarInteger n)).2 := by
  have hs : (setDTthreads o (setDTthreads o s (ScalarInteger n)).2 (ScalarInteger n)).2 =
      (setDTthreads o s (ScalarInteger n)).2 := by
    rw [setDTthreads_valid o _ n h, setDTthreads_valid o s n h]
    cases o
    · simp
    · simp only [true_and]
      by_cases h1 : s.nthreads_var < s.thread_limit_var
      · by_cases h2 : n = 0
        · simp [h1, h2]
        · by_cases h3 : s.nthreads_var < n
          · have h4 : ¬ (min n s.thread_limit_var < s.thread_limit_var ∧
                min n s.thread_limit_var < n) := by
              intro hc
              rcases le_total n s.thread_limit_var with hle | hle
              · rw [min_eq_left hle] at hc
                exact lt_irrefl _ hc.2
              · rw [min_eq_right hle] at hc
                exact lt_irrefl _ hc.1
            simp only [h1, h2, h3, if_true, if_false]
            by_cases h5 : min n s.thread_limit_var < s.thread_limit_var
            · have h6 : ¬ min n s.thread_limit_var < n := fun hc => h4 ⟨h5, hc⟩
              simp [h5, h6, h2]
            · simp [h5]
          · simp [h1, h2, h3]
      · simp [h1]
  rw [hs]
  exact ⟨rfl, rfl, rfl⟩

/-- Two calls `setDTthreads(12)` from runtime max 8 and hard limit 16 leave the
state one call leaves. -/
theorem setDTthreads_idempotent_witness :
    (setDTthreads true (setDTthreads true ⟨0, 8, 16, []⟩ (ScalarInteger 12)).2
        (ScalarInteger 12)).2 =
      (setDTthreads true ⟨0, 8, 16, []⟩ (ScalarInteger 12)).2 :=
  (setDTthreads_idempotent true ⟨0, 8, 16, []⟩ 12 (by decide)).2.2

/-- C20: saving with `old := setDTthreads(n)` and restoring with
`setDTthreads(old)` brings `DTthreads` back (for every state with
`DTthreads >= 0` and every valid `n`), but not always the effective thread
count: from `DTthreads = 0`, runtime max 8 and hard limit 16, with `n = 4`,
`getDTthreads` returns 8 before the pair and 16 after it. -/
theorem save_restore_not_effective :
    (∀ (s : State) (n : Int) (old : SEXP), 0 ≤ s.DTthreads → 0 ≤ n →
      (setDTthreads true s (ScalarInteger n)).1 = .ok old →
      (setDTthreads true (setDTthreads true s (ScalarInteger n)).2 old).2.DTthreads =
        s.DTthreads) ∧
    (setDTthreads true ⟨0, 8, 16, []⟩ (ScalarInteger 4)).1 = .ok (ScalarInteger 0) ∧
    getDTthreads true ⟨0, 8, 16, []⟩ = 8 ∧
    getDTthreads true
      (setDTthreads true (setDTthreads true ⟨0, 8, 16, []⟩ (ScalarInteger 4)).2
        (ScalarInteger 0)).2 = 16 ∧
    (∃ (s : State) (n : Int) (old : SEXP), 0 ≤ n ∧
      (setDTthreads true s (ScalarInteger n)).1 = .ok old ∧
      getDTthreads true
        (setDTthreads true (setDTthreads true s (ScalarInteger n)).2 old).2 ≠
          getDTthreads true s) := by
  refine ⟨?_, by rfl, by decide, by decide, ⟨⟨0, 8, 16, []⟩, 4, ScalarInteger 0, by decide,
    by rfl, by decide⟩⟩
  intro s n old hs hn hold
  rw [setDTthreads_valid_fst true s n hn] at hold
  cases hold
  exact setDTthreads_valid_DT true _ s.DTthreads hs

end OpenmpUtils
